import Mathlib

/-!
Verification of the RedCAM time-synchronization and track-interpolation
engine against its natural-language specification.

The Python source is shallowly embedded:
* `datetime` instants are rationals (seconds since an arbitrary epoch, UTC);
  a possibly-naive `datetime` value is the structure `PyDateTime` carrying a
  wall-clock reading plus an optional fixed UTC offset (the IANA local zone
  is modelled as a fixed UTC offset in seconds; DST transitions are outside
  the scope of every claim treated here).
* Python floats are modelled as rationals (all arithmetic in the claims is
  exact at the inputs considered).
* Fallible Python code (exceptions) returns `Except PyError`.
-/

namespace RedCAM

/-- A Python exception, identified by kind and the offending name/message. -/
inductive PyError where
  /-- Embeds `AttributeError: ... has no attribute <name>` -/
  | attributeError (name : String)
  /-- Embeds `TypeError: __init__() got an unexpected keyword argument <name>` -/
  | typeError (name : String)
  /-- any other exception raised by an external adapter -/
  | runtimeError (msg : String)
  deriving DecidableEq, Repr

/-- A Python `datetime`: wall-clock reading (seconds) plus an optional fixed
UTC offset in seconds (`none` = naive). The UTC instant of an aware value is
`wall - offset`. -/
structure PyDateTime where
  wall : ℚ
  tz : Option ℚ
  deriving DecidableEq, Repr

/-- Embeds `dt + timedelta(seconds=s)`: shifts the wall-clock reading, keeps the
zone. -/
def PyDateTime.addSeconds (dt : PyDateTime) (s : ℚ) : PyDateTime :=
  { dt with wall := dt.wall + s }

/-- Embeds `SyncVideosUseCase._ensure_utc` (sync_videos.py lines 153-157): a naive
value is localized to the configured zone, then converted to UTC. Result is
the UTC instant. -/
def ensureUtc (localTzOffset : ℚ) (dt : PyDateTime) : ℚ :=
  match dt.tz with
  | none => dt.wall - localTzOffset
  | some o => dt.wall - o

/-- Embeds `GPSPoint` (gps_types.py lines 21-47). Timestamps of track points are
always UTC-aware in the parsed data, so they are plain instants here. -/
structure GPSPoint where
  latitude : ℚ
  longitude : ℚ
  elevation : ℚ := 0
  timestamp : Option ℚ := none
  speed : ℚ := 0
  deriving DecidableEq, Repr

/-- Embeds `GPSPoint.is_valid` (gps_types.py lines 39-47). -/
def GPSPoint.is_valid (p : GPSPoint) : Bool :=
  (p.latitude ≠ 0 ∨ p.longitude ≠ 0) ∧
    (-90 ≤ p.latitude ∧ p.latitude ≤ 90) ∧
    (-180 ≤ p.longitude ∧ p.longitude ≤ 180)

/-- Embeds `GPSTrack` (gps_types.py lines 50-64). -/
structure GPSTrack where
  name : String
  points : List GPSPoint := []
  start_time : Option ℚ := none
  end_time : Option ℚ := none
  deriving DecidableEq, Repr

/-- Embeds `GPSTrack.is_empty` (gps_types.py lines 66-68). -/
def GPSTrack.is_empty (t : GPSTrack) : Bool := t.points.length = 0

/-- Python's `min` over a list known to be non-empty (result on `[]` is an
arbitrary default, the source never reaches it: `get_bounds` guards). -/
def pyMin : List ℚ → ℚ
  | [] => 0
  | x :: xs => xs.foldl min x

/-- Python's `max` over a list known to be non-empty. -/
def pyMax : List ℚ → ℚ
  | [] => 0
  | x :: xs => xs.foldl max x

/-- Embeds `GPSTrack.get_bounds` (gps_types.py lines 70-86): `(min_lat, min_lon,
max_lat, max_lon)` over the valid points, `(0,0,0,0)` if the track is empty
or has no valid point. -/
def GPSTrack.get_bounds (t : GPSTrack) : ℚ × ℚ × ℚ × ℚ :=
  if t.is_empty then (0, 0, 0, 0)
  else
    let lats := (t.points.filter (·.is_valid)).map (·.latitude)
    let lons := (t.points.filter (·.is_valid)).map (·.longitude)
    if lats.isEmpty ∨ lons.isEmpty then (0, 0, 0, 0)
    else (pyMin lats, pyMin lons, pyMax lats, pyMax lons)

/-- Embeds `GPSTrack.get_center` (gps_types.py lines 88-98). -/
def GPSTrack.get_center (t : GPSTrack) : ℚ × ℚ :=
  let b := t.get_bounds
  ((b.1 + b.2.2.1) / 2, (b.2.1 + b.2.2.2) / 2)

/-- Embeds `LocationSource` (gps_types.py lines 14-18). -/
inductive LocationSource where
  | EMBEDDED_GPS
  | FIT_SYNC
  | UNKNOWN
  deriving DecidableEq, Repr

/-- Embeds `VideoLocation` (gps_types.py lines 101-130). Note: the dataclass
declares exactly these fields; in particular there is NO `track_points`
field, even though `sync_videos.py` passes one at construction. -/
structure VideoLocation where
  video_path : String
  video_name : String
  position : Option GPSPoint
  source : LocationSource := .UNKNOWN
  creation_time : Option PyDateTime := none
  duration_seconds : Option ℚ := none
  custom_name : Option String := none
  custom_note : Option String := none
  marker_color : String := "#3388ff"
  marker_icon : String := "circle"
  deriving DecidableEq, Repr

/-! ## FitParser: temporal interpolation (fit_parser.py) -/

/-- The `FitParser` object as the synchronization engine sees it: its parsed
`track` attribute (fit_parser.py line 33 / 80-85). -/
structure FitParser where
  track : Option GPSTrack
  deriving DecidableEq, Repr

/-- Embeds `FitParser.is_time_in_track` (fit_parser.py lines 145-162). -/
def FitParser.is_time_in_track (fp : FitParser) (timeToCheck : ℚ)
    (toleranceSeconds : ℚ := 300) : Bool :=
  match fp.track with
  | none => false
  | some tr =>
    match tr.start_time, tr.end_time with
    | some s, some e =>
      decide (s - toleranceSeconds ≤ timeToCheck ∧ timeToCheck ≤ e + toleranceSeconds)
    | _, _ => false

/-- Embeds `FitParser._interpolate` (fit_parser.py lines 247-287). -/
def interpolate (p1 p2 : GPSPoint) (targetTime : ℚ) : GPSPoint :=
  match p1.timestamp, p2.timestamp with
  | some t1, some t2 =>
    if t2 - t1 = 0 then p1
    else
      let ratio := (targetTime - t1) / (t2 - t1)
      { latitude := p1.latitude + (p2.latitude - p1.latitude) * ratio
        longitude := p1.longitude + (p2.longitude - p1.longitude) * ratio
        elevation := p1.elevation + (p2.elevation - p1.elevation) * ratio
        timestamp := some targetTime
        speed := p1.speed + (p2.speed - p1.speed) * ratio }
  | _, _ => p1

/-- The scan of `FitParser._find_position_exact` (fit_parser.py lines
235-243): first consecutive pair of timestamped points whose timestamps
bracket the target. -/
def findBracket (targetTime : ℚ) : List GPSPoint → Option (GPSPoint × GPSPoint)
  | p1 :: p2 :: rest =>
    match p1.timestamp, p2.timestamp with
    | some t1, some t2 =>
      if t1 ≤ targetTime ∧ targetTime ≤ t2 then some (p1, p2)
      else findBracket targetTime (p2 :: rest)
    | _, _ => findBracket targetTime (p2 :: rest)
  | _ => none

/-- Bounds short-circuit of `_find_position_exact` (fit_parser.py lines
228-232): out of range below the first timestamped-or-not first point /
above the last. Python truthiness: a `None` timestamp skips the check. -/
def outOfRange (points : List GPSPoint) (targetTime : ℚ) : Bool :=
  (match points.head? with
   | some p =>
     match p.timestamp with
     | some t0 => decide (targetTime < t0)
     | none => false
   | none => false) ||
  (match points.getLast? with
   | some p =>
     match p.timestamp with
     | some tn => decide (targetTime > tn)
     | none => false
   | none => false)

/-- Embeds `FitParser._find_position_exact` (fit_parser.py lines 213-245). Only
ever called with a non-empty `points` list. -/
def findPositionExact (points : List GPSPoint) (targetTime : ℚ) :
    Option GPSPoint :=
  if outOfRange points targetTime then none
  else (findBracket targetTime points).map fun pq => interpolate pq.1 pq.2 targetTime

/-- Loop body of `FitParser._find_nearest_point` (fit_parser.py lines
302-312): accumulator `(nearest, min_diff)`, starting from
`(None, float('inf'))` modelled as `none`. -/
def nearestLoop (targetTime : ℚ) :
    List GPSPoint → Option (GPSPoint × ℚ) → Option (GPSPoint × ℚ)
  | [], acc => acc
  | p :: rest, acc =>
    match p.timestamp with
    | none => nearestLoop targetTime rest acc
    | some ts =>
      let diff := |ts - targetTime|
      match acc with
      | none => nearestLoop targetTime rest (some (p, diff))
      | some (q, m) =>
        if diff < m then nearestLoop targetTime rest (some (p, diff))
        else nearestLoop targetTime rest (some (q, m))

/-- Embeds `FitParser._find_nearest_point` (fit_parser.py lines 289-314). -/
def FitParser.find_nearest_point (fp : FitParser) (targetTime : ℚ) :
    Option GPSPoint :=
  match fp.track with
  | none => none
  | some tr =>
    if tr.is_empty then none
    else (nearestLoop targetTime tr.points none).map Prod.fst

/-- Embeds `FitParser.get_position_at_time` (fit_parser.py lines 164-211), for a
timezone-aware target (the source first coerces a naive target to UTC). -/
def FitParser.get_position_at_time (fp : FitParser) (targetTime : ℚ)
    (toleranceHours : ℚ := 2) : Option GPSPoint :=
  match fp.track with
  | none => none
  | some tr =>
    if tr.is_empty then none
    else
      let points := tr.points
      match findPositionExact points targetTime with
      | some r => some r
      | none =>
        match
          ([0, 1, -1, 2, -2] : List ℚ).findSome? fun offsetHours =>
            findPositionExact points (targetTime + offsetHours * 3600) with
        | some r => some r
        | none =>
          match fp.find_nearest_point targetTime with
          | some nearest =>
            match nearest.timestamp with
            | some ts =>
              let diffHours := |ts - targetTime| / 3600
              if diffHours ≤ toleranceHours then some nearest else none
            | none => none
          | none => none

end RedCAM

namespace RedCAM

/-! ## GPMF telemetry extractor (gopro_gps_extractor.py)

The byte-level KLV framing (fourCC / type / size / repeat headers,
`struct.unpack`, 4-byte padding, resynchronization on malformed items) is
abstracted: a stream is a list of already-decoded items, each carrying the
values its payload decodes to. The stateful interpretation of the items —
scale, time, fix and precision state threaded across the stream, and the
per-sample gating — is translated faithfully. -/

/-- One decoded 5-field `GPS5` group member: `[lat, lon, alt, speed, speed3d]`
raw integers (gopro_gps_extractor.py lines 27-33). -/
structure GPS5Raw where
  lat : ℤ
  lon : ℤ
  alt : ℤ
  speed : ℤ
  speed3d : ℤ
  deriving DecidableEq, Repr

/-- One decoded `GPS9` record: 7 signed 32-bit ints + 2 unsigned 16-bit ints
(gopro_gps_extractor.py lines 36-47 and 296-305). -/
structure GPS9Raw where
  lat : ℤ
  lon : ℤ
  alt : ℤ
  speed : ℤ
  speed3d : ℤ
  days_since_2000 : ℤ
  secs_since_midnight : ℤ
  dop : ℤ
  fix : ℤ
  deriving DecidableEq, Repr

/-- A decoded KLV item. `gpsu none` stands for a `GPSU` payload
`datetime.strptime` fails on (the source swallows the error and keeps the
previous time); `other` is any unrecognized fourCC. -/
inductive KlvItem where
  | scal (values : List ℚ)
  | gpsu (time : Option ℚ)
  | gpsf (fix : ℤ)
  | gpsp (dop : ℤ)
  | gps5 (samples : List GPS5Raw)
  | gps9 (samples : List GPS9Raw)
  | other
  deriving DecidableEq, Repr

/-- Mutable decoder state of `GpmfParser` (gopro_gps_extractor.py lines
69-73). -/
structure GpmfState where
  scale : List ℚ
  gps_fix : ℤ
  gps_precision : ℤ
  gps_time : Option ℚ
  deriving DecidableEq, Repr

/-- Embeds `GpmfParser.__init__` (gopro_gps_extractor.py lines 69-73). -/
def GpmfState.init : GpmfState :=
  { scale := [1, 1, 1, 1, 1, 1, 1, 1, 1], gps_fix := 0, gps_precision := 0,
    gps_time := none }

/-- Embeds `GpmfParser._parse_scale` (gopro_gps_extractor.py lines 190-206):
one value broadcasts to all 9 fields, several values are padded with 1s. -/
def parseScale (st : GpmfState) (values : List ℚ) : GpmfState :=
  match values with
  | [] => st
  | [v] => { st with scale := List.replicate 9 v }
  | vs => { st with scale := vs ++ List.replicate (9 - vs.length) 1 }

/-- Embeds `self.scale[i]` (the state invariant keeps at least 9 entries). -/
def GpmfState.scaleAt (st : GpmfState) (i : ℕ) : ℚ := st.scale.getD i 1

/-- Embeds `data[i] / self.scale[i] if self.scale[i] else data[i]`
(gopro_gps_extractor.py lines 251-254 and 317-320). -/
def scaled (st : GpmfState) (i : ℕ) (raw : ℤ) : ℚ :=
  if st.scaleAt i ≠ 0 then (raw : ℚ) / st.scaleAt i else (raw : ℚ)

/-- Embeds `GpmfParser._parse_gps5` (gopro_gps_extractor.py lines 221-281): the whole
group yields no point when the carried fix is 0 or the carried DOP exceeds
2000; otherwise each sample is scaled, `(0,0)` samples are dropped, the time
is interpolated at 18 Hz from the batch's `GPSU` time, and only valid points
are kept. -/
def parseGps5 (st : GpmfState) (samples : List GPS5Raw) : List GPSPoint :=
  if samples.isEmpty then []
  else if st.gps_fix = 0 then []
  else if st.gps_precision > 2000 then []
  else
    let repeat_ := samples.length
    (samples.enum).filterMap fun rd =>
      let r := rd.1
      let d := rd.2
      let lat := scaled st 0 d.lat
      let lon := scaled st 1 d.lon
      let alt := scaled st 2 d.alt
      let speed := scaled st 3 d.speed
      if lat = 0 ∧ lon = 0 then none
      else
        let pointTime :=
          match st.gps_time with
          | some t => if repeat_ > 1 then some (t + r * (1 / 18)) else some t
          | none => none
        let point : GPSPoint :=
          { latitude := lat, longitude := lon, elevation := alt,
            timestamp := pointTime, speed := speed }
        if point.is_valid then some point else none

/-- UTC instant of `datetime(2000, 1, 1, tzinfo=timezone.utc)` in seconds
since the Unix epoch (gopro_gps_extractor.py line 331). -/
def epoch2000 : ℚ := 946684800

/-- Embeds `GpmfParser._parse_gps9` (gopro_gps_extractor.py lines 283-348):
per-record fix/DOP gating, scaled coordinates, absolute timestamp from
days/seconds since 2000-01-01. -/
def parseGps9 (st : GpmfState) (samples : List GPS9Raw) : List GPSPoint :=
  if samples.isEmpty then []
  else
    samples.filterMap fun d =>
      if d.fix = 0 then none
      else if d.dop > 2000 then none
      else
        let lat := scaled st 0 d.lat
        let lon := scaled st 1 d.lon
        let alt := scaled st 2 d.alt
        let speed := scaled st 3 d.speed
        if lat = 0 ∧ lon = 0 then none
        else
          let days := scaled st 5 d.days_since_2000
          let secs := scaled st 6 d.secs_since_midnight
          let pointTime := epoch2000 + days * 86400 + secs
          let point : GPSPoint :=
            { latitude := lat, longitude := lon, elevation := alt,
              timestamp := some pointTime, speed := speed }
          if point.is_valid then some point else none

/-- Embeds `GpmfParser._process_klv` (gopro_gps_extractor.py lines 144-188): updates
the carried state for `SCAL`/`GPSU`/`GPSF`/`GPSP`, emits points for
`GPS5`/`GPS9`, ignores every other tag. -/
def processKlv (st : GpmfState) (item : KlvItem) : GpmfState × List GPSPoint :=
  match item with
  | .scal values => (parseScale st values, [])
  | .gpsu t =>
    (match t with
     | some x => { st with gps_time := some x }
     | none => st, [])
  | .gpsf fix => ({ st with gps_fix := fix }, [])
  | .gpsp dop => ({ st with gps_precision := dop }, [])
  | .gps5 samples => (st, parseGps5 st samples)
  | .gps9 samples => (st, parseGps9 st samples)
  | .other => (st, [])

/-- The stream loop of `GpmfParser.parse` (gopro_gps_extractor.py lines
91-132), as a fold threading the decoder state. -/
def processItems : GpmfState → List KlvItem → GpmfState × List GPSPoint
  | st, [] => (st, [])
  | st, item :: rest =>
    let sp := processKlv st item
    let rest' := processItems sp.1 rest
    (rest'.1, sp.2 ++ rest'.2)

/-- Embeds `GpmfParser.parse` (gopro_gps_extractor.py lines 75-132) on a decoded
item stream. -/
def gpmfParse (items : List KlvItem) : List GPSPoint :=
  (processItems GpmfState.init items).2

/-- What the external probing tool reports for one video path: existence,
container creation time, the index of a `gpmd` metadata sub-stream (if any),
and the decoded KLV items of that sub-stream (`none` when ffmpeg produced no
bytes). -/
structure VideoProbe where
  file_exists : Bool
  creation_time : Option PyDateTime
  gpmd_track : Option ℤ
  raw_items : Option (List KlvItem)

/-- Embeds `GoProGPSExtractor.extract_gps` (gopro_gps_extractor.py lines 427-468).
Note the final branch: a located sub-stream whose parse yields no valid
point returns `None`, exactly like a missing sub-stream. -/
def extract_gps (probe : VideoProbe) :
    Option (List GPSPoint) × Option PyDateTime :=
  if !probe.file_exists then (none, none)
  else
    let creationTime := probe.creation_time
    match probe.gpmd_track with
    | none => (none, creationTime)
    | some _ =>
      match probe.raw_items with
      | none => (none, creationTime)
      | some items =>
        let points := gpmfParse items
        if !points.isEmpty then (some points, creationTime)
        else (none, creationTime)

/-- Embeds `GoProVideoMetadataAdapter.extract_embedded_gps`
(gopro_metadata_adapter.py lines 34-42), first (uncached) call:
`embedded = points if points else None`. -/
def adapter_extract_embedded_gps (probe : VideoProbe) :
    Option (List GPSPoint) :=
  let points := (extract_gps probe).1
  match points with
  | some ps => if ps.isEmpty then none else some ps
  | none => none

end RedCAM

namespace RedCAM

/-! ## Synchronization engine (sync_models.py, sync_videos.py) -/

/-- Embeds `SyncRequest` (sync_models.py lines 18-24). The frozen dataclass declares
exactly the five fields below — in particular NO `manual_offset_seconds`
field, even though `sync_controller.py` passes one to the constructor and
`sync_videos.py` reads one off a request. -/
structure SyncRequest where
  fit_path : Option String
  video_folder : String
  force_timestamp_sync : Bool := false
  camera_filter : String := "Auto (Détection)"
  local_timezone : String := "Europe/Paris"
  deriving DecidableEq, Repr

/-- The field names `SyncRequest`'s generated `__init__` accepts
(sync_models.py lines 18-24). -/
def SyncRequest.fieldNames : List String :=
  ["fit_path", "video_folder", "force_timestamp_sync", "camera_filter",
   "local_timezone"]

/-- The attribute read `request.manual_offset_seconds` (sync_videos.py line
73): `SyncRequest` declares no such field, so the access raises
`AttributeError`. -/
def SyncRequest.manual_offset_attr (_ : SyncRequest) : Except PyError ℚ :=
  .error (.attributeError "manual_offset_seconds")

/-- Embeds `VideoMetadataPort` (core/ports/video_metadata.py), as consumed by the
use case; each operation may raise. -/
structure VideoMetadataPort where
  get_creation_time : String → Except PyError (Option PyDateTime)
  get_duration_seconds : String → Except PyError (Option ℚ)
  extract_embedded_gps : String → Except PyError (Option (List GPSPoint))

/-- Embeds `FileStatPort` (core/ports/file_stat.py). -/
structure FileStatPort where
  mtime_utc : String → Except PyError ℚ

/-- Embeds `VideoCatalogPort` (core/ports/video_catalog.py). -/
structure VideoCatalogPort where
  list_videos : String → List String → List String

/-- Embeds `SyncVideosUseCase` (sync_videos.py lines 19-27). `local_timezone` is
carried as its fixed UTC offset in seconds. -/
structure SyncVideosUseCase where
  track_sync : Option FitParser
  video_catalog : VideoCatalogPort
  video_metadata : VideoMetadataPort
  file_stat : FileStatPort
  localTzOffset : ℚ

/-- Embeds `os.path.basename`: the characters after the last path separator. -/
def basename (p : String) : String :=
  ⟨p.data.foldl (fun acc c => if c = '/' then [] else acc ++ [c]) []⟩

/-- Embeds `SyncVideosUseCase._smart_correct_timestamp` (sync_videos.py lines
120-151). Step 1 tries the five usual whole-hour offsets against the track;
when none lands, the code falls THROUGH to the mtime fallback in step 2;
every exception inside step 2 (mtime lookup, pytz) is caught and the
creation time kept. -/
def SyncVideosUseCase.smart_correct_timestamp (uc : SyncVideosUseCase)
    (creationTime : Option PyDateTime) (videoPath : String)
    (manualOffset : ℚ := 0) : Option PyDateTime :=
  match creationTime with
  | none => none
  | some ct0 =>
    let ct := if manualOffset ≠ 0 then ct0.addSeconds manualOffset else ct0
    let step1 : Option PyDateTime :=
      match uc.track_sync with
      | some fp =>
        if fp.track.isSome then
          ([0, -3600, 3600, -7200, 7200] : List ℚ).findSome? fun offset =>
            let shifted := ct.addSeconds offset
            if fp.is_time_in_track (ensureUtc uc.localTzOffset shifted) 300 then
              some shifted
            else none
        else none
      | none => none
    match step1 with
    | some shifted => some shifted
    | none =>
      match uc.file_stat.mtime_utc videoPath with
      | .error _ => some ct
      | .ok mtime =>
        let corrected := ct.wall - uc.localTzOffset
        let diffOriginal := |mtime - ensureUtc uc.localTzOffset ct|
        let diffCorrected := |mtime - corrected|
        if diffCorrected < diffOriginal ∧ diffCorrected < 7200 then
          some { wall := corrected, tz := some 0 }
        else some ct

/-- The constructor call `VideoLocation(..., track_points=...)`
(sync_videos.py lines 86-94 and 101-109). The dataclass `VideoLocation`
(gps_types.py lines 101-130) declares no `track_points` field, so the
generated `__init__` rejects the keyword with `TypeError`. -/
def VideoLocation.mkWithTrackPoints (_videoPath _videoName : String)
    (_position : Option GPSPoint) (_source : LocationSource)
    (_creationTime : Option PyDateTime) (_durationSeconds : Option ℚ)
    (_trackPoints : Option (List GPSPoint)) : Except PyError VideoLocation :=
  .error (.typeError "track_points")

/-- The attribute read `self.track_sync.get_track_segment` (sync_videos.py
line 100): neither `TrackSyncPort` (core/ports/track_sync.py lines 9-19) nor
`FitParser` (fit_parser.py) defines `get_track_segment`, so the lookup
raises `AttributeError`. -/
def FitParser.get_track_segment_attr (_ : FitParser) (_utcTime : ℚ)
    (_duration : ℚ) : Except PyError (List GPSPoint) :=
  .error (.attributeError "get_track_segment")

/-- Embeds `SyncVideosUseCase._locate_one`, from line 76 on (once the
manual-offset block of lines 72-75 has run on `rawCreationTime`). -/
def SyncVideosUseCase.locate_one_core (uc : SyncVideosUseCase)
    (req : SyncRequest) (videoPath : String) (force : Bool)
    (rawCreationTime : Option PyDateTime) : Except PyError VideoLocation :=
  let videoName := basename videoPath
  let creationTime := uc.smart_correct_timestamp rawCreationTime videoPath 0
  match uc.video_metadata.get_duration_seconds videoPath with
  | .error e => .error e
  | .ok durationSeconds =>
    let embeddedStep : Except PyError (Option (List GPSPoint)) :=
      if !force ∧ req.camera_filter ≠ "Hero 12 (Pas de GPS)" then
        match uc.video_metadata.extract_embedded_gps videoPath with
        | .error e => .error e
        | .ok e =>
          -- `if embedded_points and len(embedded_points) == 0: ... = None`
          .ok (match e with
               | some l => if !l.isEmpty ∧ l.length = 0 then none else some l
               | none => none)
      else .ok none
    match embeddedStep with
    | .error e => .error e
    | .ok embeddedPoints =>
      if !force && (match embeddedPoints with
                    | some l => !l.isEmpty
                    | none => false) then
        VideoLocation.mkWithTrackPoints videoPath videoName
          (embeddedPoints.getD []).head? .EMBEDDED_GPS creationTime
          durationSeconds embeddedPoints
      else
        let unlocated : VideoLocation :=
          { video_path := videoPath, video_name := videoName,
            position := none, source := .UNKNOWN,
            creation_time := creationTime,
            duration_seconds := durationSeconds }
        match uc.track_sync with
        | some fp =>
          match fp.track, creationTime with
          | some _, some ct =>
            let utcTime := ensureUtc uc.localTzOffset ct
            match fp.get_position_at_time utcTime 2 with
            | some position =>
              match fp.get_track_segment_attr utcTime (durationSeconds.getD 0) with
              | .error e => .error e
              | .ok trackSegment =>
                VideoLocation.mkWithTrackPoints videoPath videoName
                  (some position) .FIT_SYNC creationTime durationSeconds
                  (some trackSegment)
            | none => .ok unlocated
          | _, _ => .ok unlocated
        | none => .ok unlocated

/-- Embeds `SyncVideosUseCase._locate_one` (sync_videos.py lines 63-118). Lines
72-75 apply the manual offset: reading `request.manual_offset_seconds` is
short-circuited away only when the raw creation time is `None`. -/
def SyncVideosUseCase.locate_one (uc : SyncVideosUseCase) (req : SyncRequest)
    (videoPath : String) : Except PyError VideoLocation :=
  let force := req.force_timestamp_sync ||
    (req.camera_filter == "Hero 12 (Pas de GPS)")
  match uc.video_metadata.get_creation_time videoPath with
  | .error e => .error e
  | .ok rawCreationTime =>
    match rawCreationTime with
    | some raw0 =>
      match req.manual_offset_attr with
      | .error e => .error e
      | .ok off =>
        let raw := if off ≠ 0 then raw0.addSeconds off else raw0
        uc.locate_one_core req videoPath force (some raw)
    | none => uc.locate_one_core req videoPath force none

/-- Embeds `SyncResult` (sync_models.py lines 37-40). -/
structure SyncResultM where
  track : Option GPSTrack
  video_locations : List VideoLocation
  deriving DecidableEq, Repr

/-- The per-video loop of `SyncVideosUseCase.execute` (sync_videos.py lines
44-56): results are appended in order; an exception from `_locate_one`
propagates (there is no handler around the loop body). -/
def SyncVideosUseCase.locateAll (uc : SyncVideosUseCase) (req : SyncRequest) :
    List String → Except PyError (List VideoLocation)
  | [] => .ok []
  | p :: rest =>
    match uc.locate_one req p with
    | .error e => .error e
    | .ok loc =>
      match uc.locateAll req rest with
      | .error e => .error e
      | .ok locs => .ok (loc :: locs)

/-- Embeds `SyncVideosUseCase.execute` (sync_videos.py lines 29-61); progress
reporting is presentation-only and omitted. The per-video loop has no
exception handler: the first raising video aborts the whole batch. -/
def SyncVideosUseCase.execute (uc : SyncVideosUseCase) (req : SyncRequest) :
    Except PyError SyncResultM :=
  let videoPaths := uc.video_catalog.list_videos req.video_folder [".mp4", ".MP4"]
  let track := match uc.track_sync with
    | some fp => fp.track
    | none => none
  if videoPaths.isEmpty then .ok { track := track, video_locations := [] }
  else
    match uc.locateAll req videoPaths with
    | .error e => .error e
    | .ok results => .ok { track := track, video_locations := results }

end RedCAM

namespace RedCAM

/-! ## Concrete fixtures used by witnesses and counterexamples -/

def noopCatalog : VideoCatalogPort := ⟨fun _ _ => []⟩

def noopStat : FileStatPort := ⟨fun _ => .ok 0⟩

def trackA : GPSTrack :=
  ⟨"trackA", [⟨48, 2, 0, some 0, 0⟩, ⟨49, 3, 0, some 600, 0⟩], some 0, some 600⟩

def fpA : FitParser := ⟨some trackA⟩

def metaEmbedded : VideoMetadataPort :=
  ⟨fun _ => .ok none, fun _ => .ok (some 30),
   fun _ => .ok (some [⟨45, 5, 100, some 10, 1⟩, ⟨46, 6, 100, some 11, 1⟩])⟩

def ucEmbedded : SyncVideosUseCase :=
  ⟨some fpA, noopCatalog, metaEmbedded, noopStat, 3600⟩

def ucEmbeddedNoTrack : SyncVideosUseCase :=
  ⟨none, noopCatalog, metaEmbedded, noopStat, 3600⟩

def reqDefault : SyncRequest :=
  ⟨some "a.fit", "folder", false, "Auto (Détection)", "Europe/Paris"⟩

def metaForcedEmbedded : VideoMetadataPort :=
  ⟨fun _ => .ok (some ⟨1000, some 0⟩), fun _ => .ok (some 30),
   fun _ => .ok (some [⟨45, 5, 100, some 10, 1⟩])⟩

def metaForcedNoCt : VideoMetadataPort :=
  ⟨fun _ => .ok none, fun _ => .ok (some 30),
   fun _ => .ok (some [⟨45, 5, 100, some 10, 1⟩])⟩

def ucForced : SyncVideosUseCase :=
  ⟨some fpA, noopCatalog, metaForcedEmbedded, noopStat, 3600⟩

def ucForcedNoCt : SyncVideosUseCase :=
  ⟨some fpA, noopCatalog, metaForcedNoCt, noopStat, 3600⟩

def reqForced : SyncRequest :=
  ⟨some "a.fit", "folder", true, "Auto (Détection)", "Europe/Paris"⟩

def reqHero12 : SyncRequest :=
  ⟨some "a.fit", "folder", false, "Hero 12 (Pas de GPS)", "Europe/Paris"⟩

def fpOffTrack : FitParser :=
  ⟨some ⟨"c5", [⟨1, 1, 0, some 1000000, 0⟩], some 1000000, some 1000000⟩⟩

def metaNone : VideoMetadataPort :=
  ⟨fun _ => .ok none, fun _ => .ok none, fun _ => .ok none⟩

def ucMtimeFallback : SyncVideosUseCase :=
  ⟨some fpOffTrack, noopCatalog, metaNone, ⟨fun _ => .ok (-3600)⟩, 3600⟩

def ctAware : PyDateTime := ⟨0, some 0⟩

def fpZeroTrack : FitParser := ⟨some ⟨"c5w", [⟨1, 1, 0, some 0, 0⟩], some 0, some 0⟩⟩

def ucZeroTrack : SyncVideosUseCase :=
  ⟨some fpZeroTrack, noopCatalog, metaNone, noopStat, 0⟩

def metaCt : VideoMetadataPort :=
  ⟨fun _ => .ok (some ⟨500, none⟩), fun _ => .ok none, fun _ => .ok none⟩

def ucManualOffset : SyncVideosUseCase := ⟨none, noopCatalog, metaCt, noopStat, 3600⟩

def metaCrash : VideoMetadataPort :=
  ⟨fun p => if p = "v1.mp4" then .error (.runtimeError "ffprobe crashed")
            else .ok none,
   fun _ => .ok none, fun _ => .ok none⟩

def catTwo : VideoCatalogPort := ⟨fun _ _ => ["v1.mp4", "v2.mp4"]⟩

def ucCrash : SyncVideosUseCase := ⟨none, catTwo, metaCrash, noopStat, 0⟩

def metaCrashSecond : VideoMetadataPort :=
  ⟨fun p => if p = "a.mp4" then .error (.runtimeError "boom") else .ok none,
   fun _ => .ok none, fun _ => .ok none⟩

def catOkThenCrash : VideoCatalogPort := ⟨fun _ _ => ["ok.mp4", "a.mp4"]⟩

def ucCrashSecond : SyncVideosUseCase :=
  ⟨none, catOkThenCrash, metaCrashSecond, noopStat, 0⟩

def probeNoFix : VideoProbe :=
  ⟨true, some ⟨0, some 0⟩, some 3,
   some [.gpsf 0, .gps5 [⟨450000000, 20000000, 500, 100, 100⟩]]⟩

def probeNoFixAlt : VideoProbe := ⟨true, none, some 0, some [.gps5 [⟨1, 1, 1, 1, 1⟩]]⟩

end RedCAM


namespace RedCAM

/-! ## Helper lemmas -/

theorem foldl_min_le_init (l : List ℚ) : ∀ x : ℚ, l.foldl min x ≤ x := by
  induction l with
  | nil => intro x; simp
  | cons a as ih =>
    intro x
    simpa using le_trans (ih (min x a)) (min_le_left x a)

theorem foldl_min_le_mem (l : List ℚ) :
    ∀ x : ℚ, ∀ a ∈ l, l.foldl min x ≤ a := by
  induction l with
  | nil => intro x a ha; simp at ha
  | cons b bs ih =>
    intro x a ha
    rcases List.mem_cons.mp ha with h | h
    · subst h
      simpa using le_trans (foldl_min_le_init bs (min x a)) (min_le_right x a)
    · simpa using ih (min x b) a h

theorem foldl_min_mem (l : List ℚ) : ∀ x : ℚ, l.foldl min x = x ∨ l.foldl min x ∈ l := by
  induction l with
  | nil => intro x; simp
  | cons b bs ih =>
    intro x
    rcases ih (min x b) with h | h
    · rcases min_cases x b with ⟨hm, _⟩ | ⟨hm, _⟩
      · left; simpa [hm] using h
      · right; simp only [List.foldl_cons]
        exact List.mem_cons.mpr (Or.inl (h.trans hm))
    · right
      simp only [List.foldl_cons]
      exact List.mem_cons.mpr (Or.inr h)

theorem le_foldl_max_init (l : List ℚ) : ∀ x : ℚ, x ≤ l.foldl max x := by
  induction l with
  | nil => intro x; simp
  | cons a as ih =>
    intro x
    simpa using le_trans (le_max_left x a) (ih (max x a))

theorem mem_le_foldl_max (l : List ℚ) :
    ∀ x : ℚ, ∀ a ∈ l, a ≤ l.foldl max x := by
  induction l with
  | nil => intro x a ha; simp at ha
  | cons b bs ih =>
    intro x a ha
    rcases List.mem_cons.mp ha with h | h
    · subst h
      simpa using le_trans (le_max_right x a) (le_foldl_max_init bs (max x a))
    · simpa using ih (max x b) a h

theorem foldl_max_mem (l : List ℚ) : ∀ x : ℚ, l.foldl max x = x ∨ l.foldl max x ∈ l := by
  induction l with
  | nil => intro x; simp
  | cons b bs ih =>
    intro x
    rcases ih (max x b) with h | h
    · rcases max_cases x b with ⟨hm, _⟩ | ⟨hm, _⟩
      · left; simpa [hm] using h
      · right; simp only [List.foldl_cons]
        exact List.mem_cons.mpr (Or.inl (h.trans hm))
    · right
      simp only [List.foldl_cons]
      exact List.mem_cons.mpr (Or.inr h)

theorem pyMin_le (l : List ℚ) (a : ℚ) (ha : a ∈ l) : pyMin l ≤ a := by
  cases l with
  | nil => simp at ha
  | cons x xs =>
    rcases List.mem_cons.mp ha with h | h
    · subst h; exact foldl_min_le_init xs a
    · exact foldl_min_le_mem xs x a h

theorem pyMin_mem (l : List ℚ) (hl : l ≠ []) : pyMin l ∈ l := by
  cases l with
  | nil => exact absurd rfl hl
  | cons x xs =>
    rcases foldl_min_mem xs x with h | h
    · simp [pyMin, h]
    · exact List.mem_cons.mpr (Or.inr (by simpa [pyMin] using h))

theorem le_pyMax (l : List ℚ) (a : ℚ) (ha : a ∈ l) : a ≤ pyMax l := by
  cases l with
  | nil => simp at ha
  | cons x xs =>
    rcases List.mem_cons.mp ha with h | h
    · subst h; exact le_foldl_max_init xs a
    · exact mem_le_foldl_max xs x a h

theorem pyMax_mem (l : List ℚ) (hl : l ≠ []) : pyMax l ∈ l := by
  cases l with
  | nil => exact absurd rfl hl
  | cons x xs =>
    rcases foldl_max_mem xs x with h | h
    · simp [pyMax, h]
    · exact List.mem_cons.mpr (Or.inr (by simpa [pyMax] using h))

end RedCAM

namespace RedCAM

theorem get_bounds_eval (tr : GPSTrack) (p : GPSPoint) (hp : p ∈ tr.points)
    (hval : p.is_valid = true) :
    tr.get_bounds =
      (pyMin ((tr.points.filter (·.is_valid)).map (·.latitude)),
       pyMin ((tr.points.filter (·.is_valid)).map (·.longitude)),
       pyMax ((tr.points.filter (·.is_valid)).map (·.latitude)),
       pyMax ((tr.points.filter (·.is_valid)).map (·.longitude))) := by
  have hne : tr.points ≠ [] := List.ne_nil_of_mem hp
  have hfil : p ∈ tr.points.filter (·.is_valid) := List.mem_filter.mpr ⟨hp, hval⟩
  have hempty : tr.is_empty = false := by
    simp only [GPSTrack.is_empty, decide_eq_false_iff_not]
    simpa [List.length_eq_zero] using hne
  have hlats : ((tr.points.filter (·.is_valid)).map (·.latitude)).isEmpty = false := by
    simp only [List.isEmpty_eq_false_iff_exists_mem]
    exact ⟨p.latitude, List.mem_map_of_mem _ hfil⟩
  have hlons : ((tr.points.filter (·.is_valid)).map (·.longitude)).isEmpty = false := by
    simp only [List.isEmpty_eq_false_iff_exists_mem]
    exact ⟨p.longitude, List.mem_map_of_mem _ hfil⟩
  simp [GPSTrack.get_bounds, hempty, hlats, hlons]

/-- C10: for the empty track and for any track with no valid point,
`get_bounds` returns `(0.0, 0.0, 0.0, 0.0)` and `get_center` returns
`(0.0, 0.0)`; for a track containing a valid point, the bounds are the
min/max latitude and longitude over the valid points only (each component
both bounds every valid point and is attained by one). -/
theorem c10_bounds_and_center (tr : GPSTrack) (p : GPSPoint)
    (hp : p ∈ tr.points) (hval : p.is_valid = true) :
    (tr.get_bounds.1 ≤ p.latitude ∧ p.latitude ≤ tr.get_bounds.2.2.1 ∧
     tr.get_bounds.2.1 ≤ p.longitude ∧ p.longitude ≤ tr.get_bounds.2.2.2) ∧
    ((∃ q ∈ tr.points, q.is_valid = true ∧ q.latitude = tr.get_bounds.1) ∧
     (∃ q ∈ tr.points, q.is_valid = true ∧ q.longitude = tr.get_bounds.2.1) ∧
     (∃ q ∈ tr.points, q.is_valid = true ∧ q.latitude = tr.get_bounds.2.2.1) ∧
     (∃ q ∈ tr.points, q.is_valid = true ∧ q.longitude = tr.get_bounds.2.2.2)) ∧
    (∀ tr2 : GPSTrack, (∀ q ∈ tr2.points, q.is_valid = false) →
       tr2.get_bounds = (0, 0, 0, 0) ∧ tr2.get_center = (0, 0)) := by
  have hfil : p ∈ tr.points.filter (·.is_valid) := List.mem_filter.mpr ⟨hp, hval⟩
  have hb := get_bounds_eval tr p hp hval
  refine ⟨?_, ?_, ?_⟩
  · rw [hb]
    refine ⟨?_, ?_, ?_, ?_⟩
    · exact pyMin_le _ _ (List.mem_map_of_mem _ hfil)
    · exact le_pyMax _ _ (List.mem_map_of_mem _ hfil)
    · exact pyMin_le _ _ (List.mem_map_of_mem _ hfil)
    · exact le_pyMax _ _ (List.mem_map_of_mem _ hfil)
  · have hlne : ((tr.points.filter (·.is_valid)).map (·.latitude)) ≠ [] := by
      exact List.ne_nil_of_mem (List.mem_map_of_mem _ hfil)
    have hone : ((tr.points.filter (·.is_valid)).map (·.longitude)) ≠ [] := by
      exact List.ne_nil_of_mem (List.mem_map_of_mem _ hfil)
    rw [hb]
    refine ⟨?_, ?_, ?_, ?_⟩
    · obtain ⟨q, hq, hqe⟩ := List.mem_map.mp (pyMin_mem _ hlne)
      exact ⟨q, (List.mem_filter.mp hq).1, (List.mem_filter.mp hq).2, hqe⟩
    · obtain ⟨q, hq, hqe⟩ := List.mem_map.mp (pyMin_mem _ hone)
      exact ⟨q, (List.mem_filter.mp hq).1, (List.mem_filter.mp hq).2, hqe⟩
    · obtain ⟨q, hq, hqe⟩ := List.mem_map.mp (pyMax_mem _ hlne)
      exact ⟨q, (List.mem_filter.mp hq).1, (List.mem_filter.mp hq).2, hqe⟩
    · obtain ⟨q, hq, hqe⟩ := List.mem_map.mp (pyMax_mem _ hone)
      exact ⟨q, (List.mem_filter.mp hq).1, (List.mem_filter.mp hq).2, hqe⟩
  · intro tr2 hinv
    have hbounds : tr2.get_bounds = (0, 0, 0, 0) := by
      by_cases hmt : tr2.is_empty = true
      · simp [GPSTrack.get_bounds, hmt]
      · have hfil2 : tr2.points.filter (·.is_valid) = [] := by
          rw [List.filter_eq_nil_iff]
          intro a ha
          simp [hinv a ha]
        simp [GPSTrack.get_bounds, hmt, hfil2]
    refine ⟨hbounds, ?_⟩
    simp [GPSTrack.get_center, hbounds]

/-- Witness for `c10_bounds_and_center` at a concrete two-point track whose
second point is invalid `(0,0)`. -/
theorem c10_bounds_and_center_witness :
    (⟨48, 2, 100, some 0, 1⟩ : GPSPoint) ∈
        (⟨"w", [⟨48, 2, 100, some 0, 1⟩, ⟨0, 0, 0, none, 0⟩], some 0, some 0⟩ :
          GPSTrack).points ∧
    (⟨48, 2, 100, some 0, 1⟩ : GPSPoint).is_valid = true ∧
    ((((⟨"w", [⟨48, 2, 100, some 0, 1⟩, ⟨0, 0, 0, none, 0⟩], some 0, some 0⟩ :
          GPSTrack).get_bounds.1 ≤ (48 : ℚ) ∧ (48 : ℚ) ≤
        (⟨"w", [⟨48, 2, 100, some 0, 1⟩, ⟨0, 0, 0, none, 0⟩], some 0, some 0⟩ :
          GPSTrack).get_bounds.2.2.1 ∧
        (⟨"w", [⟨48, 2, 100, some 0, 1⟩, ⟨0, 0, 0, none, 0⟩], some 0, some 0⟩ :
          GPSTrack).get_bounds.2.1 ≤ (2 : ℚ) ∧ (2 : ℚ) ≤
        (⟨"w", [⟨48, 2, 100, some 0, 1⟩, ⟨0, 0, 0, none, 0⟩], some 0, some 0⟩ :
          GPSTrack).get_bounds.2.2.2)) ∧
      ((∃ q ∈ (⟨"w", [⟨48, 2, 100, some 0, 1⟩, ⟨0, 0, 0, none, 0⟩], some 0, some 0⟩ :
            GPSTrack).points, q.is_valid = true ∧ q.latitude =
          (⟨"w", [⟨48, 2, 100, some 0, 1⟩, ⟨0, 0, 0, none, 0⟩], some 0, some 0⟩ :
            GPSTrack).get_bounds.1) ∧
       (∃ q ∈ (⟨"w", [⟨48, 2, 100, some 0, 1⟩, ⟨0, 0, 0, none, 0⟩], some 0, some 0⟩ :
            GPSTrack).points, q.is_valid = true ∧ q.longitude =
          (⟨"w", [⟨48, 2, 100, some 0, 1⟩, ⟨0, 0, 0, none, 0⟩], some 0, some 0⟩ :
            GPSTrack).get_bounds.2.1) ∧
       (∃ q ∈ (⟨"w", [⟨48, 2, 100, some 0, 1⟩, ⟨0, 0, 0, none, 0⟩], some 0, some 0⟩ :
            GPSTrack).points, q.is_valid = true ∧ q.latitude =
          (⟨"w", [⟨48, 2, 100, some 0, 1⟩, ⟨0, 0, 0, none, 0⟩], some 0, some 0⟩ :
            GPSTrack).get_bounds.2.2.1) ∧
       (∃ q ∈ (⟨"w", [⟨48, 2, 100, some 0, 1⟩, ⟨0, 0, 0, none, 0⟩], some 0, some 0⟩ :
            GPSTrack).points, q.is_valid = true ∧ q.longitude =
          (⟨"w", [⟨48, 2, 100, some 0, 1⟩, ⟨0, 0, 0, none, 0⟩], some 0, some 0⟩ :
            GPSTrack).get_bounds.2.2.2)) ∧
      (∀ tr2 : GPSTrack, (∀ q ∈ tr2.points, q.is_valid = false) →
         tr2.get_bounds = (0, 0, 0, 0) ∧ tr2.get_center = (0, 0))) := by
  refine ⟨List.Mem.head _, by norm_num [GPSPoint.is_valid], ?_⟩
  exact c10_bounds_and_center
    ⟨"w", [⟨48, 2, 100, some 0, 1⟩, ⟨0, 0, 0, none, 0⟩], some 0, some 0⟩
    ⟨48, 2, 100, some 0, 1⟩ (List.Mem.head _)
    (by norm_num [GPSPoint.is_valid])

end RedCAM

namespace RedCAM

theorem processKlv_gps_fix (st : GpmfState) (item : KlvItem)
    (h : ∀ f : ℤ, item ≠ KlvItem.gpsf f) :
    (processKlv st item).1.gps_fix = st.gps_fix := by
  cases item with
  | scal values => cases values with
    | nil => simp [processKlv, parseScale]
    | cons v vs => cases vs <;> simp [processKlv, parseScale]
  | gpsu t => cases t <;> simp [processKlv]
  | gpsf f => exact absurd rfl (h f)
  | gpsp d => simp [processKlv]
  | gps5 samples => simp [processKlv]
  | gps9 samples => simp [processKlv]
  | other => simp [processKlv]

theorem processItems_gps_fix (items : List KlvItem) :
    ∀ st : GpmfState, (∀ f : ℤ, KlvItem.gpsf f ∉ items) →
      (processItems st items).1.gps_fix = st.gps_fix := by
  induction items with
  | nil => intro st _; simp [processItems]
  | cons item rest ih =>
    intro st h
    have hitem : ∀ f : ℤ, item ≠ KlvItem.gpsf f := by
      intro f hf
      exact h f (by simp [hf])
    have hrest : ∀ f : ℤ, KlvItem.gpsf f ∉ rest := by
      intro f hf
      exact h f (List.mem_cons.mpr (Or.inr hf))
    simp only [processItems]
    rw [ih (processKlv st item).1 hrest, processKlv_gps_fix st item hitem]

theorem processItems_append (l1 l2 : List KlvItem) :
    ∀ st : GpmfState,
      processItems st (l1 ++ l2) =
        ((processItems (processItems st l1).1 l2).1,
         (processItems st l1).2 ++ (processItems (processItems st l1).1 l2).2) := by
  induction l1 with
  | nil => intro st; simp [processItems]
  | cons item rest ih =>
    intro st
    simp only [List.cons_append, processItems]
    rw [show rest.append l2 = rest ++ l2 from rfl, ih (processKlv st item).1]
    simp [List.append_assoc]

theorem parseGps5_no_fix (st : GpmfState) (samples : List GPS5Raw)
    (h : st.gps_fix = 0) : parseGps5 st samples = [] := by
  by_cases he : samples.isEmpty <;> simp [parseGps5, he, h]

/-- C8: a `GPS5` item yields zero points whenever the carried `GPSF` fix
state is 0, regardless of the samples' coordinate values; the fix state
gates the whole group as long as no new `GPSF` item is parsed in between
(no other item kind changes the fix state). -/
theorem c8_gps5_fix_gating (st : GpmfState) (items : List KlvItem)
    (samples : List GPS5Raw) (hfix : st.gps_fix = 0)
    (hnogpsf : ∀ f : ℤ, KlvItem.gpsf f ∉ items) :
    parseGps5 (processItems st items).1 samples = [] ∧
    (processItems st (items ++ [KlvItem.gps5 samples])).2 =
      (processItems st items).2 ∧
    gpmfParse (items ++ [KlvItem.gps5 samples]) = gpmfParse items := by
  have hfix' : (processItems st items).1.gps_fix = 0 :=
    (processItems_gps_fix items st hnogpsf).trans hfix
  have h1 : parseGps5 (processItems st items).1 samples = [] :=
    parseGps5_no_fix _ _ hfix'
  have h2 : ∀ st0 : GpmfState, st0.gps_fix = 0 →
      (processItems st0 (items ++ [KlvItem.gps5 samples])).2 =
        (processItems st0 items).2 := by
    intro st0 h0
    have hfix0 : (processItems st0 items).1.gps_fix = 0 :=
      (processItems_gps_fix items st0 hnogpsf).trans h0
    rw [processItems_append]
    simp [processItems, processKlv, parseGps5_no_fix _ _ hfix0]
  exact ⟨h1, h2 st hfix, h2 GpmfState.init rfl⟩

/-- Witness for `c8_gps5_fix_gating`: a no-fix batch with one in-range,
nonzero GPS5 sample still yields no point. -/
theorem c8_gps5_fix_gating_witness :
    GpmfState.init.gps_fix = 0 ∧
    (∀ f : ℤ, KlvItem.gpsf f ∉
        [KlvItem.gpsp 1, KlvItem.gpsu (some 100)]) ∧
    (parseGps5 (processItems GpmfState.init
        [KlvItem.gpsp 1, KlvItem.gpsu (some 100)]).1
        [⟨45, 2, 500, 3, 3⟩] = [] ∧
      (processItems GpmfState.init
        ([KlvItem.gpsp 1, KlvItem.gpsu (some 100)] ++
          [KlvItem.gps5 [⟨45, 2, 500, 3, 3⟩]])).2 =
        (processItems GpmfState.init
          [KlvItem.gpsp 1, KlvItem.gpsu (some 100)]).2 ∧
      gpmfParse ([KlvItem.gpsp 1, KlvItem.gpsu (some 100)] ++
          [KlvItem.gps5 [⟨45, 2, 500, 3, 3⟩]]) =
        gpmfParse [KlvItem.gpsp 1, KlvItem.gpsu (some 100)]) := by
  refine ⟨rfl, ?_, ?_⟩
  · intro f hf
    simp at hf
  · exact c8_gps5_fix_gating GpmfState.init
      [KlvItem.gpsp 1, KlvItem.gpsu (some 100)] [⟨45, 2, 500, 3, 3⟩] rfl
      (by intro f hf; simp at hf)

end RedCAM

namespace RedCAM

theorem nearestLoop_cons_none (targetTime : ℚ) (p : GPSPoint)
    (rest : List GPSPoint) (acc : Option (GPSPoint × ℚ))
    (h : p.timestamp = none) :
    nearestLoop targetTime (p :: rest) acc = nearestLoop targetTime rest acc := by
  simp [nearestLoop, h]

theorem nearestLoop_cons_start (targetTime : ℚ) (p : GPSPoint)
    (rest : List GPSPoint) (ts : ℚ) (h : p.timestamp = some ts) :
    nearestLoop targetTime (p :: rest) none =
      nearestLoop targetTime rest (some (p, |ts - targetTime|)) := by
  simp [nearestLoop, h]

theorem nearestLoop_cons_step (targetTime : ℚ) (p : GPSPoint)
    (rest : List GPSPoint) (ts : ℚ) (q : GPSPoint) (m : ℚ)
    (h : p.timestamp = some ts) :
    nearestLoop targetTime (p :: rest) (some (q, m)) =
      if |ts - targetTime| < m then
        nearestLoop targetTime rest (some (p, |ts - targetTime|))
      else nearestLoop targetTime rest (some (q, m)) := by
  by_cases hlt : |ts - targetTime| < m <;> simp [nearestLoop, h, hlt]

theorem nearestLoop_ts (targetTime : ℚ) (l : List GPSPoint) :
    ∀ acc, (∀ q m, acc = some (q, m) → ∃ ts, q.timestamp = some ts ∧
        m = |ts - targetTime|) →
      ∀ p m, nearestLoop targetTime l acc = some (p, m) →
        ∃ ts, p.timestamp = some ts ∧ m = |ts - targetTime| := by
  induction l with
  | nil =>
    intro acc hacc p m hres
    exact hacc p m hres
  | cons p0 rest ih =>
    intro acc hacc p m hres
    cases hts : p0.timestamp with
    | none =>
      rw [nearestLoop_cons_none _ _ _ _ hts] at hres
      exact ih acc hacc p m hres
    | some ts0 =>
      cases hachd : acc with
      | none =>
        rw [hachd, nearestLoop_cons_start _ _ _ _ hts] at hres
        refine ih _ ?_ p m hres
        intro q m' hq
        injection hq with hq'
        obtain ⟨rfl, rfl⟩ := Prod.mk.inj hq'
        exact ⟨ts0, hts, rfl⟩
      | some qm =>
        obtain ⟨q0, m0⟩ := qm
        rw [hachd, nearestLoop_cons_step _ _ _ _ _ _ hts] at hres
        by_cases hlt : |ts0 - targetTime| < m0
        · rw [if_pos hlt] at hres
          refine ih _ ?_ p m hres
          intro q m' hq
          injection hq with hq'
          obtain ⟨rfl, rfl⟩ := Prod.mk.inj hq'
          exact ⟨ts0, hts, rfl⟩
        · rw [if_neg hlt] at hres
          refine ih _ ?_ p m hres
          intro q m' hq
          injection hq with hq'
          obtain ⟨rfl, rfl⟩ := Prod.mk.inj hq'
          exact hacc q0 m0 hachd

theorem nearestLoop_mono (targetTime : ℚ) (l : List GPSPoint) :
    ∀ acc q0 m0, acc = some (q0, m0) →
      ∀ p m, nearestLoop targetTime l acc = some (p, m) → m ≤ m0 := by
  induction l with
  | nil =>
    intro acc q0 m0 hacc p m hres
    rw [hacc] at hres
    simp only [nearestLoop] at hres
    injection hres with h
    obtain ⟨-, rfl⟩ := Prod.mk.inj h
    rfl
  | cons p0 rest ih =>
    intro acc q0 m0 hacc p m hres
    cases hts : p0.timestamp with
    | none =>
      rw [nearestLoop_cons_none _ _ _ _ hts] at hres
      exact ih acc q0 m0 hacc p m hres
    | some ts0 =>
      rw [hacc, nearestLoop_cons_step _ _ _ _ _ _ hts] at hres
      by_cases hlt : |ts0 - targetTime| < m0
      · rw [if_pos hlt] at hres
        exact le_trans (ih _ p0 _ rfl p m hres) (le_of_lt hlt)
      · rw [if_neg hlt] at hres
        exact ih _ q0 m0 rfl p m hres

theorem nearestLoop_min (targetTime : ℚ) (l : List GPSPoint) :
    ∀ acc p m, nearestLoop targetTime l acc = some (p, m) →
      ∀ q ∈ l, ∀ tq, q.timestamp = some tq → m ≤ |tq - targetTime| := by
  induction l with
  | nil =>
    intro acc p m _ q hq
    simp at hq
  | cons p0 rest ih =>
    intro acc p m hres q hq tq htq
    rcases List.mem_cons.mp hq with rfl | hmem
    · cases hachd : acc with
      | none =>
        rw [hachd, nearestLoop_cons_start _ _ _ _ htq] at hres
        exact nearestLoop_mono targetTime rest _ q _ rfl p m hres
      | some qm =>
        obtain ⟨q0, m0⟩ := qm
        rw [hachd, nearestLoop_cons_step _ _ _ _ _ _ htq] at hres
        by_cases hlt : |tq - targetTime| < m0
        · rw [if_pos hlt] at hres
          exact nearestLoop_mono targetTime rest _ q _ rfl p m hres
        · rw [if_neg hlt] at hres
          exact le_trans (nearestLoop_mono targetTime rest _ q0 m0 rfl p m hres)
            (not_lt.mp hlt)
    · cases hts : p0.timestamp with
      | none =>
        rw [nearestLoop_cons_none _ _ _ _ hts] at hres
        exact ih acc p m hres q hmem tq htq
      | some ts0 =>
        cases hachd : acc with
        | none =>
          rw [hachd, nearestLoop_cons_start _ _ _ _ hts] at hres
          exact ih _ p m hres q hmem tq htq
        | some qm =>
          obtain ⟨q0, m0⟩ := qm
          rw [hachd, nearestLoop_cons_step _ _ _ _ _ _ hts] at hres
          by_cases hlt : |ts0 - targetTime| < m0
          · rw [if_pos hlt] at hres
            exact ih _ p m hres q hmem tq htq
          · rw [if_neg hlt] at hres
            exact ih _ p m hres q hmem tq htq

theorem nearestLoop_mem (targetTime : ℚ) (l : List GPSPoint) :
    ∀ acc p m, nearestLoop targetTime l acc = some (p, m) →
      (acc = some (p, m)) ∨ p ∈ l := by
  induction l with
  | nil =>
    intro acc p m hres
    simp only [nearestLoop] at hres
    exact Or.inl hres
  | cons p0 rest ih =>
    intro acc p m hres
    cases hts : p0.timestamp with
    | none =>
      rw [nearestLoop_cons_none _ _ _ _ hts] at hres
      rcases ih acc p m hres with h | h
      · exact Or.inl h
      · exact Or.inr (List.mem_cons.mpr (Or.inr h))
    | some ts0 =>
      cases hachd : acc with
      | none =>
        rw [hachd, nearestLoop_cons_start _ _ _ _ hts] at hres
        rcases ih _ p m hres with h | h
        · injection h with h'
          obtain ⟨rfl, -⟩ := Prod.mk.inj h'
          exact Or.inr (List.mem_cons.mpr (Or.inl rfl))
        · exact Or.inr (List.mem_cons.mpr (Or.inr h))
      | some qm =>
        obtain ⟨q0, m0⟩ := qm
        rw [hachd, nearestLoop_cons_step _ _ _ _ _ _ hts] at hres
        by_cases hlt : |ts0 - targetTime| < m0
        · rw [if_pos hlt] at hres
          rcases ih _ p m hres with h | h
          · injection h with h'
            obtain ⟨rfl, -⟩ := Prod.mk.inj h'
            exact Or.inr (List.mem_cons.mpr (Or.inl rfl))
          · exact Or.inr (List.mem_cons.mpr (Or.inr h))
        · rw [if_neg hlt] at hres
          rcases ih _ p m hres with h | h
          · injection h with h'
            obtain ⟨rfl, rfl⟩ := Prod.mk.inj h'
            exact Or.inl rfl
          · exact Or.inr (List.mem_cons.mpr (Or.inr h))

theorem find_nearest_point_spec (tr : GPSTrack) (targetTime : ℚ) (p : GPSPoint)
    (h : FitParser.find_nearest_point ⟨some tr⟩ targetTime = some p) :
    ∃ ts, p.timestamp = some ts ∧ p ∈ tr.points ∧
      ∀ q ∈ tr.points, ∀ tq, q.timestamp = some tq →
        |ts - targetTime| ≤ |tq - targetTime| := by
  simp only [FitParser.find_nearest_point] at h
  by_cases hmt : tr.is_empty = true
  · rw [if_pos hmt] at h
    exact absurd h (by simp)
  · rw [if_neg hmt] at h
    obtain ⟨⟨p', m⟩, hres, hp⟩ := Option.map_eq_some'.mp h
    obtain rfl : p' = p := hp
    obtain ⟨ts, hts, rfl⟩ :=
      nearestLoop_ts targetTime tr.points none
        (by intro q m' hq; simp at hq) _ _ hres
    refine ⟨ts, hts, ?_, ?_⟩
    · rcases nearestLoop_mem targetTime tr.points none _ _ hres with h' | h'
      · exact absurd h' (by simp)
      · exact h'
    · exact nearestLoop_min targetTime tr.points none _ _ hres

theorem nearest_gate_congr (targetTime tol : ℚ) (nearest : GPSPoint) :
    (match nearest.timestamp with
     | some ts =>
       if |ts - targetTime| / 3600 ≤ tol then some nearest else none
     | none => (none : Option GPSPoint)) =
    (match nearest.timestamp with
     | some ts =>
       if |ts - targetTime| ≤ tol * 3600 then some nearest else none
     | none => none) := by
  cases hts : nearest.timestamp with
  | none => rfl
  | some ts => exact if_congr (div_le_iff₀ (by norm_num : (0:ℚ) < 3600)) rfl rfl

/-- C1: on a loaded non-empty track, when the exact-bracket search finds
nothing at the target, `get_position_at_time` retries the bracket search at
the whole-hour offsets `0, +1h, -1h, +2h, -2h` in that order and returns
the first hit; if none hits it falls back to the timestamped point with
minimum absolute time difference to the target, returned only when that
difference is at most `tolerance_hours` converted to seconds. -/
theorem c1_offset_retry_and_nearest_fallback (tr : GPSTrack)
    (targetTime tol : ℚ) (hne : tr.points ≠ [])
    (hexact : findPositionExact tr.points targetTime = none) :
    (FitParser.get_position_at_time ⟨some tr⟩ targetTime tol =
      match ([0, 1, -1, 2, -2] : List ℚ).findSome?
          (fun offsetHours =>
            findPositionExact tr.points (targetTime + offsetHours * 3600)) with
      | some r => some r
      | none =>
        match FitParser.find_nearest_point ⟨some tr⟩ targetTime with
        | some nearest =>
          match nearest.timestamp with
          | some ts => if |ts - targetTime| ≤ tol * 3600 then some nearest else none
          | none => none
        | none => none) ∧
    (∀ p, FitParser.find_nearest_point ⟨some tr⟩ targetTime = some p →
      ∃ ts, p.timestamp = some ts ∧ p ∈ tr.points ∧
        ∀ q ∈ tr.points, ∀ tq, q.timestamp = some tq →
          |ts - targetTime| ≤ |tq - targetTime|) := by
  have hempty : tr.is_empty = false := by
    simp only [GPSTrack.is_empty, decide_eq_false_iff_not]
    simpa [List.length_eq_zero] using hne
  constructor
  · simp only [FitParser.get_position_at_time, hempty, hexact, Bool.false_eq_true,
      if_false]
    cases hfs : ([0, 1, -1, 2, -2] : List ℚ).findSome?
        (fun offsetHours =>
          findPositionExact tr.points (targetTime + offsetHours * 3600)) with
    | some r => rfl
    | none =>
      cases hn : FitParser.find_nearest_point ⟨some tr⟩ targetTime with
      | none => rfl
      | some nearest => exact nearest_gate_congr targetTime tol nearest
  · intro p hp
    exact find_nearest_point_spec tr targetTime p hp

/-- Witness for `c1_offset_retry_and_nearest_fallback` on a one-point track
with the target out of range of every shifted search. -/
theorem c1_offset_retry_and_nearest_fallback_witness :
    ((⟨"w1", [⟨7, 8, 0, some 0, 0⟩], some 0, some 0⟩ : GPSTrack).points ≠ [] ∧
     findPositionExact (⟨"w1", [⟨7, 8, 0, some 0, 0⟩], some 0, some 0⟩ :
        GPSTrack).points 10000 = none) ∧
    ((FitParser.get_position_at_time
        ⟨some ⟨"w1", [⟨7, 8, 0, some 0, 0⟩], some 0, some 0⟩⟩ 10000 2 =
      match ([0, 1, -1, 2, -2] : List ℚ).findSome?
          (fun offsetHours =>
            findPositionExact (⟨"w1", [⟨7, 8, 0, some 0, 0⟩], some 0, some 0⟩ :
              GPSTrack).points (10000 + offsetHours * 3600)) with
      | some r => some r
      | none =>
        match FitParser.find_nearest_point
            ⟨some ⟨"w1", [⟨7, 8, 0, some 0, 0⟩], some 0, some 0⟩⟩ 10000 with
        | some nearest =>
          match nearest.timestamp with
          | some ts => if |ts - 10000| ≤ (2 : ℚ) * 3600 then some nearest else none
          | none => none
        | none => none) ∧
    (∀ p, FitParser.find_nearest_point
        ⟨some ⟨"w1", [⟨7, 8, 0, some 0, 0⟩], some 0, some 0⟩⟩ 10000 = some p →
      ∃ ts, p.timestamp = some ts ∧
        p ∈ (⟨"w1", [⟨7, 8, 0, some 0, 0⟩], some 0, some 0⟩ : GPSTrack).points ∧
        ∀ q ∈ (⟨"w1", [⟨7, 8, 0, some 0, 0⟩], some 0, some 0⟩ : GPSTrack).points,
          ∀ tq, q.timestamp = some tq → |ts - 10000| ≤ |tq - (10000 : ℚ)|)) := by
  refine ⟨⟨by simp, by norm_num [findPositionExact, outOfRange]⟩, ?_⟩
  exact c1_offset_retry_and_nearest_fallback
    ⟨"w1", [⟨7, 8, 0, some 0, 0⟩], some 0, some 0⟩ 10000 2 (by simp)
    (by norm_num [findPositionExact, outOfRange])

end RedCAM

namespace RedCAM

/-- C2: when the exact-bracket search passes the bounds check and finds a
consecutive timestamped pair bracketing the target, `get_position_at_time`
returns the pair linearly interpolated at
`ratio = (target - t1) / (t2 - t1)` with the timestamp set to the target,
and returns `p1` unmodified when the bracketing timestamps are equal; on
the two-point track `t0=0s,(0,0)` / `t1=10s,(10,10)` the position at
`t0+5s` is exactly `(5,5)` and the position at `t0` is the first point. -/
theorem c2_bracket_interpolation (tr : GPSTrack) (targetTime tol : ℚ)
    (p1 p2 : GPSPoint) (t1 t2 : ℚ) (hne : tr.points ≠ [])
    (hout : outOfRange tr.points targetTime = false)
    (hbr : findBracket targetTime tr.points = some (p1, p2))
    (ht1 : p1.timestamp = some t1) (ht2 : p2.timestamp = some t2) :
    FitParser.get_position_at_time ⟨some tr⟩ targetTime tol =
      some (interpolate p1 p2 targetTime) ∧
    (t1 = t2 → interpolate p1 p2 targetTime = p1) ∧
    (t1 ≠ t2 → interpolate p1 p2 targetTime =
      { latitude :=
          p1.latitude + (p2.latitude - p1.latitude) * ((targetTime - t1) / (t2 - t1)),
        longitude :=
          p1.longitude + (p2.longitude - p1.longitude) * ((targetTime - t1) / (t2 - t1)),
        elevation :=
          p1.elevation + (p2.elevation - p1.elevation) * ((targetTime - t1) / (t2 - t1)),
        timestamp := some targetTime,
        speed :=
          p1.speed + (p2.speed - p1.speed) * ((targetTime - t1) / (t2 - t1)) }) ∧
    FitParser.get_position_at_time
      ⟨some ⟨"c2", [⟨0, 0, 0, some 0, 0⟩, ⟨10, 10, 0, some 10, 0⟩], some 0, some 10⟩⟩
      5 2 = some ⟨5, 5, 0, some 5, 0⟩ ∧
    FitParser.get_position_at_time
      ⟨some ⟨"c2", [⟨0, 0, 0, some 0, 0⟩, ⟨10, 10, 0, some 10, 0⟩], some 0, some 10⟩⟩
      0 2 = some ⟨0, 0, 0, some 0, 0⟩ := by
  have hempty : tr.is_empty = false := by
    simp only [GPSTrack.is_empty, decide_eq_false_iff_not]
    simpa [List.length_eq_zero] using hne
  have hexact : findPositionExact tr.points targetTime =
      some (interpolate p1 p2 targetTime) := by
    simp [findPositionExact, hout, hbr]
  refine ⟨?_, ?_, ?_, ?_, ?_⟩
  · simp only [FitParser.get_position_at_time, hempty, Bool.false_eq_true,
      if_false, hexact]
  · intro h
    simp [interpolate, ht1, ht2, h]
  · intro h
    have hsub : ¬(t2 - t1 = 0) := sub_ne_zero.mpr (Ne.symm h)
    simp [interpolate, ht1, ht2, hsub]
  · norm_num [FitParser.get_position_at_time, findPositionExact, outOfRange,
      findBracket, interpolate, GPSTrack.is_empty]
  · norm_num [FitParser.get_position_at_time, findPositionExact, outOfRange,
      findBracket, interpolate, GPSTrack.is_empty]

/-- Witness for `c2_bracket_interpolation` on the claim's own two-point
track at target `5`. -/
theorem c2_bracket_interpolation_witness :
    ((⟨"c2", [⟨0, 0, 0, some 0, 0⟩, ⟨10, 10, 0, some 10, 0⟩], some 0, some 10⟩ :
        GPSTrack).points ≠ [] ∧
     outOfRange (⟨"c2", [⟨0, 0, 0, some 0, 0⟩, ⟨10, 10, 0, some 10, 0⟩],
        some 0, some 10⟩ : GPSTrack).points 5 = false ∧
     findBracket 5 (⟨"c2", [⟨0, 0, 0, some 0, 0⟩, ⟨10, 10, 0, some 10, 0⟩],
        some 0, some 10⟩ : GPSTrack).points =
       some (⟨0, 0, 0, some 0, 0⟩, ⟨10, 10, 0, some 10, 0⟩)) ∧
    FitParser.get_position_at_time
      ⟨some ⟨"c2", [⟨0, 0, 0, some 0, 0⟩, ⟨10, 10, 0, some 10, 0⟩], some 0, some 10⟩⟩
      5 2 = some (interpolate ⟨0, 0, 0, some 0, 0⟩ ⟨10, 10, 0, some 10, 0⟩ 5) := by
  refine ⟨⟨by simp, by norm_num [outOfRange], by norm_num [findBracket]⟩, ?_⟩
  exact (c2_bracket_interpolation
    ⟨"c2", [⟨0, 0, 0, some 0, 0⟩, ⟨10, 10, 0, some 10, 0⟩], some 0, some 10⟩
    5 2 ⟨0, 0, 0, some 0, 0⟩ ⟨10, 10, 0, some 10, 0⟩ 0 10 (by simp)
    (by norm_num [outOfRange]) (by norm_num [findBracket]) rfl rfl).1

end RedCAM

namespace RedCAM

/-- C3 (code bug): a video whose embedded-GPS extraction yields two points,
with `force_timestamp_sync` off, does not produce the claimed `EmbeddedGPS`
`VideoLocation`: the engine reaches the embedded branch first (before any
track-sync, whether or not a track is loaded) but the `VideoLocation`
constructor call passes a `track_points` keyword the dataclass does not
declare, raising `TypeError`. -/
theorem c3_embedded_branch_raises :
    ucEmbedded.locate_one reqDefault "v1.mp4" =
      .error (.typeError "track_points") ∧
    ucEmbeddedNoTrack.locate_one reqDefault "v1.mp4" =
      .error (.typeError "track_points") := by
  constructor <;> rfl

/-- C4 (code bug): with `force_timestamp_sync` set (or the GPS-less Hero 12
profile selected), embedded extraction is indeed skipped and no
`EmbeddedGPS` result can arise — but a forced video whose creation time is
known crashes with `AttributeError` on `request.manual_offset_seconds`
before any result is produced, and the track-sync hit branch names a
`get_track_segment` method that no component defines. -/
theorem c4_forced_mode :
    ucForced.locate_one reqForced "v1.mp4" =
      .error (.attributeError "manual_offset_seconds") ∧
    ucForcedNoCt.locate_one reqForced "v1.mp4" =
      .ok { video_path := "v1.mp4", video_name := "v1.mp4", position := none,
            source := .UNKNOWN, creation_time := none,
            duration_seconds := some 30 } ∧
    ucForcedNoCt.locate_one reqHero12 "v1.mp4" =
      .ok { video_path := "v1.mp4", video_name := "v1.mp4", position := none,
            source := .UNKNOWN, creation_time := none,
            duration_seconds := some 30 } ∧
    fpA.get_track_segment_attr 0 30 =
      .error (.attributeError "get_track_segment") := by
  refine ⟨rfl, rfl, rfl, rfl⟩

/-- C6 (code bug): `SyncRequest` declares no `manual_offset_seconds` field,
so for any video whose raw creation time is known the engine raises
`AttributeError` while applying the manual offset, instead of adding the
offset and completing. -/
theorem c6_manual_offset_missing_field :
    ucManualOffset.locate_one reqDefault "v1.mp4" =
      .error (.attributeError "manual_offset_seconds") ∧
    "manual_offset_seconds" ∉ SyncRequest.fieldNames := by
  refine ⟨rfl, by decide⟩

end RedCAM

namespace RedCAM

/-- C7 counterexample: a batch of two videos where the first video's
creation-time lookup raises. The exception propagates out of `execute`:
the batch aborts with the adapter's error instead of producing a
two-element result list with the first video degraded to `Unknown`. -/
theorem c7_counterexample_batch_aborts :
    ucCrash.execute reqDefault = .error (.runtimeError "ffprobe crashed") := by
  rfl

theorem locateAll_append_error (uc : SyncVideosUseCase) (req : SyncRequest) :
    ∀ pre : List String,
      (∀ p ∈ pre, ∃ loc, uc.locate_one req p = .ok loc) →
      ∀ path rest e, uc.locate_one req path = .error e →
        uc.locateAll req (pre ++ path :: rest) = .error e := by
  intro pre
  induction pre with
  | nil =>
    intro _ path rest e herr
    simp only [List.nil_append, SyncVideosUseCase.locateAll, herr]
  | cons q qs ih =>
    intro hpre path rest e herr
    obtain ⟨loc, hq⟩ := hpre q (List.mem_cons_self q qs)
    have hrest := ih (fun p hp => hpre p (List.mem_cons.mpr (Or.inr hp)))
      path rest e herr
    simp only [List.cons_append, SyncVideosUseCase.locateAll, hq]
    rw [show qs.append (path :: rest) = qs ++ path :: rest from rfl, hrest]

/-- C7 amended: an exception raised by an adapter-boundary operation while
processing one video is NOT caught by the per-video loop: whichever position
the failing video occupies, `execute` aborts with that exception and no
result list (no `Unknown` degradation). Each of the three adapter
operations propagates out of `_locate_one` where the code reaches it —
creation time unconditionally; duration and embedded-GPS extraction when
the creation time is unknown (a known creation time already fails earlier
on the missing `manual_offset_seconds` field). The only exceptions caught
are those inside the clock-correction mtime fallback, which keep the
creation time unchanged. -/
theorem c7_adapter_error_aborts_batch (uc : SyncVideosUseCase)
    (req : SyncRequest) (pre : List String) (path : String)
    (rest : List String) (e : PyError)
    (hlist : uc.video_catalog.list_videos req.video_folder [".mp4", ".MP4"] =
      pre ++ path :: rest)
    (hpre : ∀ p ∈ pre, ∃ loc, uc.locate_one req p = .ok loc)
    (herr : uc.locate_one req path = .error e) :
    uc.execute req = .error e ∧
    (∀ (uc2 : SyncVideosUseCase) (req2 : SyncRequest) (p : String)
       (e2 : PyError),
      uc2.video_metadata.get_creation_time p = .error e2 →
      uc2.locate_one req2 p = .error e2) ∧
    (∀ (uc2 : SyncVideosUseCase) (req2 : SyncRequest) (p : String)
       (e2 : PyError),
      uc2.video_metadata.get_creation_time p = .ok none →
      uc2.video_metadata.get_duration_seconds p = .error e2 →
      uc2.locate_one req2 p = .error e2) ∧
    (∀ (uc2 : SyncVideosUseCase) (req2 : SyncRequest) (p : String)
       (e2 : PyError) (d : Option ℚ),
      uc2.video_metadata.get_creation_time p = .ok none →
      uc2.video_metadata.get_duration_seconds p = .ok d →
      req2.force_timestamp_sync = false →
      req2.camera_filter ≠ "Hero 12 (Pas de GPS)" →
      uc2.video_metadata.extract_embedded_gps p = .error e2 →
      uc2.locate_one req2 p = .error e2) ∧
    (∀ (uc2 : SyncVideosUseCase) (fp : FitParser) (ct : PyDateTime)
       (p : String) (e2 : PyError),
      uc2.track_sync = some fp →
      (([0, -3600, 3600, -7200, 7200] : List ℚ).findSome? fun offset =>
        if fp.is_time_in_track
            (ensureUtc uc2.localTzOffset (ct.addSeconds offset)) 300 then
          some (ct.addSeconds offset)
        else none) = none →
      uc2.file_stat.mtime_utc p = .error e2 →
      uc2.smart_correct_timestamp (some ct) p 0 = some ct) ∧
    (∀ (uc2 : SyncVideosUseCase) (ct : PyDateTime) (p : String) (e2 : PyError),
      uc2.track_sync = none →
      uc2.file_stat.mtime_utc p = .error e2 →
      uc2.smart_correct_timestamp (some ct) p 0 = some ct) := by
  refine ⟨?_, ?_, ?_, ?_, ?_, ?_⟩
  · have hemp : (pre ++ path :: rest).isEmpty = false := by simp
    simp only [SyncVideosUseCase.execute, hlist, hemp, Bool.false_eq_true,
      if_false, locateAll_append_error uc req pre hpre path rest e herr]
  · intro uc2 req2 p e2 h
    simp only [SyncVideosUseCase.locate_one, h]
  · intro uc2 req2 p e2 hct hdur
    simp only [SyncVideosUseCase.locate_one, hct,
      SyncVideosUseCase.locate_one_core, hdur]
  · intro uc2 req2 p e2 d hct hdur hforce hcam hex
    have hbeq : (req2.camera_filter == "Hero 12 (Pas de GPS)") = false :=
      beq_eq_false_iff_ne.mpr hcam
    simp only [SyncVideosUseCase.locate_one, hct,
      SyncVideosUseCase.locate_one_core, hdur, hforce, hbeq, Bool.or_false,
      Bool.not_false, hex, ne_eq, hcam, not_false_eq_true, and_true,
      if_true, true_and, if_pos]
  · intro uc2 fp ct p e2 hts hfind hmt
    cases htr : fp.track.isSome with
    | true =>
      simp only [SyncVideosUseCase.smart_correct_timestamp, hts, htr, hfind,
        hmt, ne_eq, if_true]
      norm_num
      rw [hfind]
    | false =>
      simp only [SyncVideosUseCase.smart_correct_timestamp, hts, htr, hmt,
        Bool.false_eq_true, if_false, ne_eq]
      norm_num
  · intro uc2 ct p e2 hts hmt
    simp only [SyncVideosUseCase.smart_correct_timestamp, hts, hmt, ne_eq]
    norm_num

/-- Witness for `c7_adapter_error_aborts_batch` on a two-video batch whose
first video succeeds and whose second video's creation-time lookup raises. -/
theorem c7_adapter_error_aborts_batch_witness :
    (ucCrashSecond.video_catalog.list_videos reqDefault.video_folder
        [".mp4", ".MP4"] = ["ok.mp4"] ++ "a.mp4" :: [] ∧
     (∀ p ∈ ["ok.mp4"], ∃ loc,
        ucCrashSecond.locate_one reqDefault p = .ok loc) ∧
     ucCrashSecond.locate_one reqDefault "a.mp4" =
        .error (.runtimeError "boom")) ∧
    ucCrashSecond.execute reqDefault = .error (.runtimeError "boom") := by
  have hpre : ∀ p ∈ ["ok.mp4"], ∃ loc,
      ucCrashSecond.locate_one reqDefault p = .ok loc := by
    intro p hp
    simp only [List.mem_singleton] at hp
    subst hp
    exact ⟨{ video_path := "ok.mp4", video_name := "ok.mp4", position := none,
             source := .UNKNOWN, creation_time := none,
             duration_seconds := none }, rfl⟩
  refine ⟨⟨rfl, hpre, rfl⟩, ?_⟩
  exact (c7_adapter_error_aborts_batch ucCrashSecond reqDefault ["ok.mp4"]
    "a.mp4" [] _ rfl hpre rfl).1

/-- C9 counterexample: a video with a located `gpmd` sub-stream whose GPMF
items carry a `GPSF 0` fix and one `GPS5` group (so the stream exists but
contains no qualifying sample) makes the adapter return `None`, not an
empty non-`None` sequence: the two absence cases are conflated. -/
theorem c9_counterexample_conflated_none :
    probeNoFix.gpmd_track = some 3 ∧
    gpmfParse [.gpsf 0, .gps5 [⟨450000000, 20000000, 500, 100, 100⟩]] = [] ∧
    adapter_extract_embedded_gps probeNoFix = none := by
  refine ⟨rfl, rfl, rfl⟩

/-- C9 amended: `extract_embedded_gps` returns `None` both when no `gpmd`
sub-stream is located and when a sub-stream exists but yields no qualifying
sample; it never returns an empty non-`None` sequence. -/
theorem c9_extract_embedded_gps_none_cases (probe : VideoProbe)
    (items : List KlvItem) (hex : probe.file_exists = true)
    (htrack : probe.gpmd_track.isSome = true)
    (hraw : probe.raw_items = some items) (hparse : gpmfParse items = []) :
    adapter_extract_embedded_gps probe = none ∧
    (∀ probe2 : VideoProbe, adapter_extract_embedded_gps probe2 ≠ some []) ∧
    (∀ probe2 : VideoProbe, probe2.gpmd_track = none →
      adapter_extract_embedded_gps probe2 = none) := by
  refine ⟨?_, ?_, ?_⟩
  · obtain ⟨i, hi⟩ := Option.isSome_iff_exists.mp htrack
    simp [adapter_extract_embedded_gps, extract_gps, hex, hi, hraw, hparse]
  · intro probe2 hcontra
    simp only [adapter_extract_embedded_gps, extract_gps] at hcontra
    by_cases hfe : probe2.file_exists
    · rw [if_neg (by simp [hfe])] at hcontra
      cases htr : probe2.gpmd_track with
      | none => simp [htr] at hcontra
      | some i =>
        rw [htr] at hcontra
        cases hri : probe2.raw_items with
        | none => simp [hri] at hcontra
        | some items2 =>
          rw [hri] at hcontra
          by_cases hpe : (gpmfParse items2).isEmpty
          · simp [hpe] at hcontra
          · simp [hpe] at hcontra
            simp [hcontra] at hpe
    · rw [if_pos (by simp [hfe])] at hcontra
      simp at hcontra
  · intro probe2 htr
    by_cases hfe : probe2.file_exists
    · simp [adapter_extract_embedded_gps, extract_gps, hfe, htr]
    · simp [adapter_extract_embedded_gps, extract_gps, hfe]

/-- Witness for `c9_extract_embedded_gps_none_cases` on a sub-stream whose
only `GPS5` group precedes any `GPSF` (initial fix state 0). -/
theorem c9_extract_embedded_gps_none_cases_witness :
    (probeNoFixAlt.file_exists = true ∧
     probeNoFixAlt.gpmd_track.isSome = true ∧
     probeNoFixAlt.raw_items = some [.gps5 [⟨1, 1, 1, 1, 1⟩]] ∧
     gpmfParse [.gps5 [⟨1, 1, 1, 1, 1⟩]] = []) ∧
    (adapter_extract_embedded_gps probeNoFixAlt = none ∧
     (∀ probe2 : VideoProbe, adapter_extract_embedded_gps probe2 ≠ some []) ∧
     (∀ probe2 : VideoProbe, probe2.gpmd_track = none →
       adapter_extract_embedded_gps probe2 = none)) := by
  refine ⟨⟨rfl, rfl, rfl, rfl⟩, ?_⟩
  exact c9_extract_embedded_gps_none_cases probeNoFixAlt
    [.gps5 [⟨1, 1, 1, 1, 1⟩]] rfl rfl rfl rfl

end RedCAM

namespace RedCAM

/-- C5 counterexample: a loaded one-point track (around t=1000000) far from
the creation time, so none of the five offsets lands — yet clock correction
returns the timezone-corrected time `-3600`, not the unchanged creation
time `0`: the mtime fallback IS attempted and accepted. -/
theorem c5_counterexample_mtime_fallback_runs :
    ucMtimeFallback.smart_correct_timestamp (some ctAware) "v.mp4" 0 =
      some ⟨-3600, some 0⟩ ∧
    (some (⟨-3600, some 0⟩ : PyDateTime) ≠ some ctAware) ∧
    fpOffTrack.track.isSome = true ∧
    (([0, -3600, 3600, -7200, 7200] : List ℚ).all fun offset =>
      !(fpOffTrack.is_time_in_track
          (ensureUtc 3600 (ctAware.addSeconds offset)) 300)) = true := by
  refine ⟨?_, ?_, rfl, ?_⟩
  · norm_num [SyncVideosUseCase.smart_correct_timestamp, ucMtimeFallback,
      fpOffTrack, ctAware, FitParser.is_time_in_track, ensureUtc,
      PyDateTime.addSeconds, List.findSome?]
  · simp [ctAware]
  · norm_num [FitParser.is_time_in_track, ensureUtc, PyDateTime.addSeconds,
      fpOffTrack, ctAware, List.all]

/-- C5 amended: with a track loaded, clock correction tries the five offsets
`0, -3600, +3600, -7200, +7200` in order and returns the first landing
shifted time, skipping the mtime fallback entirely (the result does not
depend on the file-stat port); but when none of the five offsets lands, the
mtime fallback IS attempted: the creation time reinterpreted in the local
zone is accepted iff strictly closer to the file mtime and within 7200
seconds of it, otherwise the creation time is kept. -/
theorem c5_offset_search_then_mtime_fallback (uc : SyncVideosUseCase)
    (fp : FitParser) (ct : PyDateTime) (videoPath : String)
    (hts : uc.track_sync = some fp) (htr : fp.track.isSome = true) :
    (∀ shifted,
      (([0, -3600, 3600, -7200, 7200] : List ℚ).findSome? fun offset =>
        if fp.is_time_in_track
            (ensureUtc uc.localTzOffset (ct.addSeconds offset)) 300 then
          some (ct.addSeconds offset)
        else none) = some shifted →
      ∀ fs : FileStatPort,
        ({ uc with file_stat := fs } : SyncVideosUseCase).smart_correct_timestamp
          (some ct) videoPath 0 = some shifted) ∧
    ((([0, -3600, 3600, -7200, 7200] : List ℚ).findSome? fun offset =>
        if fp.is_time_in_track
            (ensureUtc uc.localTzOffset (ct.addSeconds offset)) 300 then
          some (ct.addSeconds offset)
        else none) = none →
      uc.smart_correct_timestamp (some ct) videoPath 0 =
        match uc.file_stat.mtime_utc videoPath with
        | .error _ => some ct
        | .ok mtime =>
          if |mtime - (ct.wall - uc.localTzOffset)| <
                |mtime - ensureUtc uc.localTzOffset ct| ∧
              |mtime - (ct.wall - uc.localTzOffset)| < 7200 then
            some ⟨ct.wall - uc.localTzOffset, some 0⟩
          else some ct) := by
  constructor
  · intro shifted hfind fs
    simp only [SyncVideosUseCase.smart_correct_timestamp, hts, htr, hfind,
      ne_eq, not_true_eq_false, if_false, if_true]
  · intro hfind
    simp only [SyncVideosUseCase.smart_correct_timestamp, hts, htr, hfind,
      ne_eq, not_true_eq_false, if_false, if_true]

/-- Witness for `c5_offset_search_then_mtime_fallback`: a track around t=0
and an aware creation time 0; the very first offset (`Δ=0`) lands, and the
result is independent of the file-stat port. -/
theorem c5_offset_search_then_mtime_fallback_witness :
    (ucZeroTrack.track_sync = some fpZeroTrack ∧
     fpZeroTrack.track.isSome = true ∧
     (([0, -3600, 3600, -7200, 7200] : List ℚ).findSome? fun offset =>
        if fpZeroTrack.is_time_in_track
            (ensureUtc ucZeroTrack.localTzOffset (ctAware.addSeconds offset)) 300 then
          some (ctAware.addSeconds offset)
        else none) = some (ctAware.addSeconds 0)) ∧
    (∀ fs : FileStatPort,
      ({ ucZeroTrack with file_stat := fs } : SyncVideosUseCase).smart_correct_timestamp
        (some ctAware) "v.mp4" 0 = some (ctAware.addSeconds 0)) := by
  have hfind : (([0, -3600, 3600, -7200, 7200] : List ℚ).findSome? fun offset =>
      if fpZeroTrack.is_time_in_track
          (ensureUtc ucZeroTrack.localTzOffset (ctAware.addSeconds offset)) 300 then
        some (ctAware.addSeconds offset)
      else none) = some (ctAware.addSeconds 0) := by
    norm_num [FitParser.is_time_in_track, ensureUtc, PyDateTime.addSeconds,
      fpZeroTrack, ctAware, ucZeroTrack, List.findSome?]
  refine ⟨⟨rfl, rfl, hfind⟩, ?_⟩
  exact (c5_offset_search_then_mtime_fallback ucZeroTrack fpZeroTrack ctAware
    "v.mp4" rfl rfl).1 (ctAware.addSeconds 0) hfind

end RedCAM
